import Mathlib

/-!
Shallow embedding of HOOMD-blue's GPU dispatch / autotuning subsystem:

* `PotentialPairDPDThermoGPU` (src/hoomd/md/PotentialPairDPDThermoGPU.h):
  the constructor's tuning-parameter enumeration, `setTuningParam`, and
  `computeForces` (neighbor-list mode check, autotuner bracket, kernel
  launch, optional post-launch device error check).
* `PatchEnergyJITUnionGPU` (header in the repository): the narrow-phase
  tuning-parameter enumeration and the composite-geometry setters
  (`setTypeids`, `setPositions`, `setOrientations`, `setDiameters`,
  `setCharges`) together with `buildOBBTree`.
* `SystemDefinition::setNDimensions` (SystemDefinition.cc).
* The `Autotuner` behaviour (its implementation lives outside the provided
  sources; it is modelled from the specification where needed).

Machine `unsigned int` values are modelled as `Nat`: every quantity involved
(encoded tuning keys, block sizes, dimensions) stays far below 2^32 in the
code paths under study, so no wrap-around arithmetic arises.
-/

set_option autoImplicit false

namespace HoomdModel

/-! ### `PotentialPairDPDThermoGPU::computeForces` -/

/-- Neighbor-list storage mode (`NeighborList::half` vs `NeighborList::full`);
the flag the GPU DPD path inspects. -/
inductive StorageMode where
  | half
  | full
deriving DecidableEq, Repr

/-- Final outcome of a `computeForces` call: normal return, the
`std::runtime_error` thrown on a half neighbor list, or the error thrown by
`CHECK_CUDA_ERROR()` when a device error is pending and checking is enabled. -/
inductive Outcome where
  | ok
  | halfListError
  | deviceError
deriving DecidableEq, Repr

/-- The inputs `computeForces` reads: the neighbor list's storage mode, the
member `m_param` (0 unless `setTuningParam` was called), the parameter the
autotuner currently returns, whether CUDA error checking is enabled in the
execution configuration, and whether a device-side error is pending at the
post-launch check. -/
structure GPUComputeInputs where
  mode : StorageMode
  mParam : Nat
  tunerParam : Nat
  errorChecking : Bool
  deviceErrorPending : Bool
deriving DecidableEq, Repr

/-- Observable trace of one `computeForces` call: how many times
`m_tuner->begin()`, `m_tuner->end()` and `m_tuner->getParam()` ran, the
kernel launches issued (as `(block_size, threads_per_particle)` pairs), how
many post-launch device error checks ran, and the outcome. -/
structure ComputeTrace where
  beginCount : Nat
  endCount : Nat
  getParamCalls : Nat
  launches : List (Nat × Nat)
  errorChecks : Nat
  outcome : Outcome
deriving DecidableEq, Repr

/-- `param / 10000`, the block-size decode in `computeForces`. -/
def decodeBlockSize (param : Nat) : Nat := param / 10000

/-- `param % 10000`, the threads-per-particle decode in `computeForces`. -/
def decodeTpp (param : Nat) : Nat := param % 10000

/-- `block_size * 10000 + threads_per_particle`, the encoding used by the
`PotentialPairDPDThermoGPU` constructor when enumerating tuning keys. -/
def encodeDPDParam (blockSize tpp : Nat) : Nat := blockSize * 10000 + tpp

/-- `PotentialPairDPDThermoGPU::computeForces`, reduced to its observable
events.  Faithful to the source order: the half-list check throws before any
autotuner call and before the launch; `begin()`/`getParam()` run only when
`m_param == 0`; the kernel launch uses the decoded block size and
threads-per-particle; `CHECK_CUDA_ERROR()` runs only when error checking is
enabled and, if a device error is pending, throws before `m_tuner->end()`. -/
def computeForces (st : GPUComputeInputs) : ComputeTrace :=
  if st.mode = StorageMode.half then
    { beginCount := 0, endCount := 0, getParamCalls := 0, launches := [],
      errorChecks := 0, outcome := Outcome.halfListError }
  else
    let begins := if st.mParam = 0 then 1 else 0
    let gets := if st.mParam = 0 then 1 else 0
    let param := if st.mParam = 0 then st.tunerParam else st.mParam
    let checks := if st.errorChecking then 1 else 0
    let threw := st.errorChecking && st.deviceErrorPending
    { beginCount := begins,
      endCount := if st.mParam = 0 ∧ threw = false then 1 else 0,
      getParamCalls := gets,
      launches := [(decodeBlockSize param, decodeTpp param)],
      errorChecks := checks,
      outcome := if threw then Outcome.deviceError else Outcome.ok }

/-! ### Tuning-key domains enumerated at construction -/

/-- The ascending powers of two not exceeding `n`, i.e. the values visited by
a C++ loop `for (x = 1; x <= n; x *= 2)`.  Empty when `n = 0`.  (Since
`i < 2 ^ i`, the exponent range `[0, n)` covers every power of two `≤ n`;
the filter keeps exactly the loop's values, in ascending order.) -/
def powersLe (n : Nat) : List Nat :=
  ((List.range n).map (2 ^ ·)).filter (· ≤ n)

/-- Modelled from the spec: `Autotuner::getTppListPow2(warp_size)` (its
implementation is outside the provided sources) yields the candidate
threads-per-particle values — per the backend limits described in the spec
and the `setTuningParam` documentation, the powers of two up to the device
warp size. -/
def getTppListPow2 (warpSize : Nat) : List Nat := powersLe warpSize

/-- Block sizes visited by the DPD constructor's loop
`for (block_size = warp_size; block_size <= 1024; block_size += warp_size)`:
the positive multiples of the warp size not exceeding 1024.  (The C++ loop
does not terminate for a zero warp size; real devices report a positive one,
and the theorems assume `0 < warpSize`.) -/
def blockSizes (warpSize : Nat) : List Nat :=
  (List.range (1024 / warpSize)).map (fun i => (i + 1) * warpSize)

/-- The `valid_params` vector built by the `PotentialPairDPDThermoGPU`
constructor: for each block size, for each `s` in `getTppListPow2`,
`block_size * 10000 + s`. -/
def dpdValidParams (warpSize : Nat) : List Nat :=
  (blockSizes warpSize).flatMap
    (fun bs => (getTppListPow2 warpSize).map (fun s => encodeDPDParam bs s))

/-- The `valid_params_patch` vector built by the `PatchEnergyJITUnionGPU`
constructor: for each launch bound reported by the compiled module, for each
power-of-two `group_size` up to that bound and power-of-two `eval_threads`
up to the warp size, keep `bounds * 1000000 + group_size * 100 + eval_threads`
when `group_size * eval_threads` divides the bound. -/
def validParamsPatch (launchBounds : List Nat) (warpSize : Nat) : List Nat :=
  launchBounds.flatMap (fun b =>
    (powersLe b).flatMap (fun g =>
      (powersLe warpSize).filterMap (fun e =>
        if b % (g * e) = 0 then some (b * 1000000 + g * 100 + e) else none)))

/-! ### The `Autotuner` -/

/-- Sum of the `j`-th block of `ns` recorded durations, i.e. the durations
recorded for the `j`-th candidate under the fixed probe order (candidate 0
sampled `ns` times, then candidate 1, ...).  With every candidate holding the
same number `ns` of samples, comparing these sums compares the means. -/
def sliceSum (ns : Nat) (recorded : List Nat) (j : Nat) : Nat :=
  ((recorded.drop (ns * j)).take ns).sum

/-- Index of the best candidate among the first `k`: minimal `score`, ties
broken toward the smaller `key` (spec: the smaller encoded candidate),
earliest index when both tie. -/
def bestIdx (k : Nat) (score key : Nat → Nat) : Nat :=
  (List.range k).foldl
    (fun b j =>
      if score j < score b ∨ (score j = score b ∧ key j < key b) then j else b)
    0

/-- The candidate an autotuner locks onto once `recorded` holds all its
samples: the candidate whose `ns` recorded durations have the smallest sum
(equivalently, since every candidate holds exactly `ns` samples, the smallest
mean), ties broken toward the smaller encoded key. -/
def lockChoice (candidates : List Nat) (ns : Nat) (recorded : List Nat) :
    Nat :=
  candidates.getD
    (bestIdx candidates.length (sliceSum ns recorded)
      (fun j => candidates.getD j 0))
    0

/-- Mean of the `j`-th candidate's recorded durations (each candidate holds
exactly `ns` samples once the scan completes). -/
def meanDuration (ns : Nat) (recorded : List Nat) (j : Nat) : ℚ :=
  (sliceSum ns recorded j : ℚ) / (ns : ℚ)

/-- Modelled from the spec: the `Autotuner` state (the class implementation
is outside the provided sources).  It holds the ordered immutable candidate
list, the required sample count, the rescan period, the durations recorded so
far in the current scan (flat, in probe order: each candidate in sequence is
probed `samplesPer` times), the `Scanning`/`Locked` flag and the parameter
chosen at the lock. -/
structure Autotuner where
  candidates : List Nat
  samplesPer : Nat
  period : Nat
  name : String
  recorded : List Nat
  locked : Bool
  lockedParam : Nat
  enabled : Bool
deriving DecidableEq, Repr

namespace Autotuner

/-- Modelled from the spec: the `Autotuner(valid_params, nsamples, period,
name, exec_conf)` constructor.  (The C++ constructor additionally rejects an
empty candidate list; the behavioural theorems below carry that nonemptiness
as a hypothesis.) -/
def construct (candidates : List Nat) (nsamples period : Nat)
    (name : String) : Autotuner :=
  { candidates := candidates, samplesPer := nsamples, period := period,
    name := name, recorded := [], locked := false, lockedParam := 0,
    enabled := true }

/-- Modelled from the spec: one complete `begin()`/`end()` bracket around a
launch measured to take `t`.  While `Scanning` the sample is recorded; once
every candidate has accumulated `samplesPer` samples the tuner locks onto the
minimum-mean candidate (ties toward the smaller encoded key).  While `Locked`
the bracket records nothing. -/
def step (a : Autotuner) (t : Nat) : Autotuner :=
  if a.locked then a
  else
    let rec2 := a.recorded ++ [t]
    if rec2.length = a.samplesPer * a.candidates.length then
      { a with recorded := rec2, locked := true,
               lockedParam := lockChoice a.candidates a.samplesPer rec2 }
    else { a with recorded := rec2 }

/-- Modelled from the spec: `getParam()` returns the locked choice while
`Locked`, and the candidate currently being probed while `Scanning`. -/
def getParam (a : Autotuner) : Nat :=
  if a.locked then a.lockedParam
  else a.candidates.getD (a.recorded.length / a.samplesPer) 0

end Autotuner

/-- The narrow-phase patch autotuner exactly as the `PatchEnergyJITUnionGPU`
constructor creates it: `Autotuner(valid_params_patch, 5, 100000,
"hpmc_narrow_patch", m_exec_conf)`. -/
def patchTuner (launchBounds : List Nat) (warpSize : Nat) : Autotuner :=
  Autotuner.construct (validParamsPatch launchBounds warpSize) 5 100000
    "hpmc_narrow_patch"

/-- The DPD pair autotuner exactly as the `PotentialPairDPDThermoGPU`
constructor creates it: `Autotuner(valid_params, 5, 100000,
"pair_" + evaluator::getName(), m_exec_conf)`. -/
def dpdTuner (warpSize : Nat) (evaluatorName : String) : Autotuner :=
  Autotuner.construct (dpdValidParams warpSize) 5 100000
    ("pair_" ++ evaluatorName)

/-! ### `SystemDefinition::setNDimensions` -/

/-- The slice of `SystemDefinition` state the dimensionality setter touches. -/
structure SystemDefinition where
  n_dimensions : Nat
deriving DecidableEq, Repr

/-- `SystemDefinition::setNDimensions`: rejects every dimensionality other
than 2 or 3 with a `runtime_error` (returned as `some message`, leaving the
state untouched); otherwise stores the new value and reports no error. -/
def setNDimensions (sysdef : SystemDefinition) (n : Nat) :
    SystemDefinition × Option String :=
  if ¬(n = 2 ∨ n = 3) then
    (sysdef, some "Error setting dimensions")
  else
    ({ sysdef with n_dimensions := n }, none)

/-! ### `PatchEnergyJITUnionGPU`: composite-geometry setters -/

/-- A constituent position (`vec3<float>` in the source, modelled over `ℚ`;
the claims under study concern which data the setters store and when the
bounding-volume tree is rebuilt, not floating-point rounding). -/
def Vec3 : Type := Rat × Rat × Rat
deriving DecidableEq, Inhabited, Repr

/-- A constituent orientation (`quat<float>`: scalar part and vector part). -/
def QuatQ : Type := Rat × Vec3
deriving DecidableEq, Inhabited, Repr

/-- Modelled from the spec: the bounding-volume (OBB) tree a composite type
owns.  `PatchEnergyJITUnion::buildOBBTree` — the base-class builder — is
outside the provided sources; per the spec it derives the tree from the
constituent positions, expanded for each constituent's finite size
(diameter).  The model records exactly the data the tree is derived from, so
"stale" is expressible as a mismatch with the currently stored geometry. -/
structure OBBTreeModel where
  builtFromPositions : List Vec3
  builtFromDiameters : List Rat
deriving DecidableEq, Inhabited, Repr

/-- One `jit::union_params_t` device-shared parameter block: the per-type
constituent arrays, the tree, and a counter of `set_memory_hint()` calls
(`cudaMemAdviseSetReadMostly`) on the block. -/
structure UnionParams where
  mtype : List Nat
  mpos : List Vec3
  morientation : List QuatQ
  mdiameter : List Rat
  mcharge : List Rat
  tree : OBBTreeModel
  hintCount : Nat
deriving DecidableEq, Inhabited, Repr

/-- The `PatchEnergyJITUnionGPU` state the setters touch: the type-name
registry (external collaborator, modelled as the ordered list of names), the
host-side per-type vectors inherited from `PatchEnergyJITUnion`, the
host-side trees `m_tree`, the device-shared blocks `m_d_union_params`, and a
counter of completed `buildOBBTree` calls (observing "a rebuild was
triggered"). -/
structure PatchState where
  typeNames : List String
  m_type : List (List Nat)
  m_position : List (List Vec3)
  m_orientation : List (List QuatQ)
  m_diameter : List (List Rat)
  m_charge : List (List Rat)
  m_tree : List OBBTreeModel
  m_d_union_params : List UnionParams
  rebuildCount : Nat
deriving DecidableEq, Repr

namespace PatchState

/-- `ParticleData::getTypeByName` (external registry per the spec): the index
of the name, if registered. -/
def getTypeByName (st : PatchState) (ty : String) : Option Nat :=
  st.typeNames.indexOf? ty

/-- Replace the device block of type `tid` by `f` applied to it. -/
def updateBlock (st : PatchState) (tid : Nat) (f : UnionParams → UnionParams) :
    PatchState :=
  { st with m_d_union_params :=
      st.m_d_union_params.set tid (f (st.m_d_union_params.getD tid default)) }

/-- `PatchEnergyJITUnionGPU::buildOBBTree(type_id)`: runs the base-class
builder (modelled from the spec: `m_tree[type_id]` becomes the tree derived
from the stored positions and diameters of that type) and then copies it into
the device block (`m_d_union_params[type_id].tree = m_tree[type_id]`). -/
def buildOBBTree (st : PatchState) (tid : Nat) : PatchState :=
  let newTree : OBBTreeModel :=
    { builtFromPositions := st.m_position.getD tid [],
      builtFromDiameters := st.m_diameter.getD tid [] }
  let st1 := { st with m_tree := st.m_tree.set tid newTree,
                       rebuildCount := st.rebuildCount + 1 }
  st1.updateBlock tid (fun b => { b with tree := newTree })

/-- `PatchEnergyJITUnionGPU::setTypeids`: resolve the type name, store the
list on the host, replace the block's `mtype` wholesale, re-hint.  No tree
rebuild. -/
def setTypeids (st : PatchState) (ty : String) (typeids : List Nat) :
    Option PatchState :=
  (st.getTypeByName ty).map (fun tid =>
    let st1 := { st with m_type := st.m_type.set tid typeids }
    st1.updateBlock tid
      (fun b => { b with mtype := typeids, hintCount := b.hintCount + 1 }))

/-- `PatchEnergyJITUnionGPU::setPositions`: store on the host, replace the
block's `mpos` wholesale, re-hint, then `buildOBBTree(type_id)`. -/
def setPositions (st : PatchState) (ty : String) (position : List Vec3) :
    Option PatchState :=
  (st.getTypeByName ty).map (fun tid =>
    let st1 := { st with m_position := st.m_position.set tid position }
    let st2 := st1.updateBlock tid
      (fun b => { b with mpos := position, hintCount := b.hintCount + 1 })
    st2.buildOBBTree tid)

/-- `PatchEnergyJITUnionGPU::setOrientations`: store on the host, replace the
block's `morientation` wholesale, re-hint.  No tree rebuild. -/
def setOrientations (st : PatchState) (ty : String)
    (orientation : List QuatQ) : Option PatchState :=
  (st.getTypeByName ty).map (fun tid =>
    let st1 := { st with m_orientation := st.m_orientation.set tid orientation }
    st1.updateBlock tid
      (fun b => { b with morientation := orientation,
                         hintCount := b.hintCount + 1 }))

/-- `PatchEnergyJITUnionGPU::setDiameters`: store on the host, replace the
block's `mdiameter` wholesale, re-hint.  No tree rebuild. -/
def setDiameters (st : PatchState) (ty : String) (diameter : List Rat) :
    Option PatchState :=
  (st.getTypeByName ty).map (fun tid =>
    let st1 := { st with m_diameter := st.m_diameter.set tid diameter }
    st1.updateBlock tid
      (fun b => { b with mdiameter := diameter,
                         hintCount := b.hintCount + 1 }))

/-- `PatchEnergyJITUnionGPU::setCharges`: store on the host, replace the
block's `mcharge` wholesale, re-hint.  No tree rebuild. -/
def setCharges (st : PatchState) (ty : String) (charge : List Rat) :
    Option PatchState :=
  (st.getTypeByName ty).map (fun tid =>
    let st1 := { st with m_charge := st.m_charge.set tid charge }
    st1.updateBlock tid
      (fun b => { b with mcharge := charge, hintCount := b.hintCount + 1 }))

/-- Well-formedness: one entry per registered type in every per-type list. -/
def wellFormed (st : PatchState) : Prop :=
  st.m_type.length = st.typeNames.length ∧
  st.m_position.length = st.typeNames.length ∧
  st.m_orientation.length = st.typeNames.length ∧
  st.m_diameter.length = st.typeNames.length ∧
  st.m_charge.length = st.typeNames.length ∧
  st.m_tree.length = st.typeNames.length ∧
  st.m_d_union_params.length = st.typeNames.length

end PatchState

/-! ### Helper lemmas about the enumerated domains -/

lemma mem_powersLe {x n : Nat} :
    x ∈ powersLe n ↔ (∃ i, x = 2 ^ i) ∧ x ≤ n := by
  unfold powersLe
  simp only [List.mem_filter, List.mem_map, List.mem_range, decide_eq_true_eq]
  constructor
  · rintro ⟨⟨i, _, rfl⟩, hle⟩
    exact ⟨⟨i, rfl⟩, hle⟩
  · rintro ⟨⟨i, rfl⟩, hle⟩
    exact ⟨⟨i, lt_of_lt_of_le (Nat.lt_two_pow i) hle, rfl⟩, hle⟩

lemma powersLe_pos {x n : Nat} (hx : x ∈ powersLe n) : 0 < x := by
  obtain ⟨⟨i, rfl⟩, -⟩ := mem_powersLe.mp hx
  exact Nat.pos_pow_of_pos i (by omega)

lemma mem_blockSizes {bs warpSize : Nat} (hw : 0 < warpSize) :
    bs ∈ blockSizes warpSize ↔
      (∃ m, 0 < m ∧ bs = m * warpSize) ∧ bs ≤ 1024 := by
  unfold blockSizes
  simp only [List.mem_map, List.mem_range]
  constructor
  · rintro ⟨i, hi, rfl⟩
    refine ⟨⟨i + 1, Nat.succ_pos i, rfl⟩, ?_⟩
    exact (Nat.le_div_iff_mul_le hw).mp hi
  · rintro ⟨⟨m, hm, rfl⟩, hle⟩
    refine ⟨m - 1, ?_, by rw [Nat.sub_add_cancel hm]⟩
    have : m ≤ 1024 / warpSize := (Nat.le_div_iff_mul_le hw).mpr hle
    omega

lemma mem_dpdValidParams {k warpSize : Nat} (hw : 0 < warpSize) :
    k ∈ dpdValidParams warpSize ↔
      ∃ blockSize tpp,
        (∃ m, 0 < m ∧ blockSize = m * warpSize) ∧ blockSize ≤ 1024 ∧
        (∃ i, tpp = 2 ^ i) ∧ tpp ≤ warpSize ∧
        k = encodeDPDParam blockSize tpp := by
  unfold dpdValidParams getTppListPow2
  simp only [List.mem_flatMap, List.mem_map]
  constructor
  · rintro ⟨bs, hbs, s, hs, rfl⟩
    obtain ⟨⟨m, hm, rfl⟩, hle⟩ := (mem_blockSizes hw).mp hbs
    obtain ⟨⟨i, rfl⟩, hsle⟩ := mem_powersLe.mp hs
    exact ⟨m * warpSize, 2 ^ i, ⟨m, hm, rfl⟩, hle, ⟨i, rfl⟩, hsle, rfl⟩
  · rintro ⟨bs, s, hmul, hle, hpow, hsle, rfl⟩
    exact ⟨bs, (mem_blockSizes hw).mpr ⟨hmul, hle⟩, s,
      mem_powersLe.mpr ⟨hpow, hsle⟩, rfl⟩

lemma mem_validParamsPatch {k warpSize : Nat} {launchBounds : List Nat}
    (hlb : ∀ b ∈ launchBounds, 0 < b) :
    k ∈ validParamsPatch launchBounds warpSize ↔
      ∃ bounds ∈ launchBounds, ∃ groupSize evalThreads,
        (∃ i, groupSize = 2 ^ i) ∧ (∃ j, evalThreads = 2 ^ j) ∧
        evalThreads ≤ warpSize ∧ groupSize * evalThreads ∣ bounds ∧
        k = bounds * 1000000 + groupSize * 100 + evalThreads := by
  unfold validParamsPatch
  simp only [List.mem_flatMap, List.mem_filterMap]
  constructor
  · rintro ⟨b, hb, g, hg, e, he, hif⟩
    have hgpos : 0 < g := powersLe_pos hg
    have hepos : 0 < e := powersLe_pos he
    obtain ⟨⟨i, rfl⟩, -⟩ := mem_powersLe.mp hg
    obtain ⟨⟨j, rfl⟩, hew⟩ := mem_powersLe.mp he
    by_cases hmod : b % (2 ^ i * 2 ^ j) = 0
    · rw [if_pos hmod] at hif
      obtain rfl := Option.some.inj hif
      exact ⟨b, hb, 2 ^ i, 2 ^ j, ⟨i, rfl⟩, ⟨j, rfl⟩, hew,
        Nat.dvd_iff_mod_eq_zero.mpr hmod, rfl⟩
    · rw [if_neg hmod] at hif
      exact absurd hif (by simp)
  · rintro ⟨b, hb, g, e, ⟨i, rfl⟩, ⟨j, rfl⟩, hew, hdvd, rfl⟩
    have hbpos : 0 < b := hlb b hb
    have hepos : (0 : Nat) < 2 ^ j := Nat.pos_pow_of_pos j (by omega)
    have hgb : 2 ^ i ≤ b :=
      le_trans (Nat.le_mul_of_pos_right _ hepos) (Nat.le_of_dvd hbpos hdvd)
    refine ⟨b, hb, 2 ^ i, mem_powersLe.mpr ⟨⟨i, rfl⟩, hgb⟩, 2 ^ j,
      mem_powersLe.mpr ⟨⟨j, rfl⟩, hew⟩, ?_⟩
    rw [if_pos (Nat.dvd_iff_mod_eq_zero.mp hdvd)]

/-! ### Helper lemmas about the autotuner scan -/

lemma bestIdx_succ (k : Nat) (score key : Nat → Nat) :
    bestIdx (k + 1) score key =
      (fun b j =>
        if score j < score b ∨ (score j = score b ∧ key j < key b) then j
        else b)
      (bestIdx k score key) k := by
  unfold bestIdx
  rw [List.range_succ, List.foldl_append]
  rfl

lemma bestIdx_lt (k : Nat) (score key : Nat → Nat) (hk : 0 < k) :
    bestIdx k score key < k := by
  induction k with
  | zero => exact absurd hk (by omega)
  | succ n ih =>
    rw [bestIdx_succ]
    rcases Nat.eq_zero_or_pos n with hn | hn
    · subst hn
      have hz : bestIdx 0 score key = 0 := rfl
      rw [hz]
      dsimp only
      split <;> omega
    · have := ih hn
      dsimp only
      split <;> omega

lemma bestIdx_min (k : Nat) (score key : Nat → Nat) (j : Nat) (hj : j < k) :
    score (bestIdx k score key) ≤ score j ∧
    (score j = score (bestIdx k score key) →
      key (bestIdx k score key) ≤ key j) := by
  induction k with
  | zero => omega
  | succ n ih =>
    rw [bestIdx_succ]
    dsimp only
    by_cases hcond :
        score n < score (bestIdx n score key) ∨
          (score n = score (bestIdx n score key) ∧
            key n < key (bestIdx n score key))
    · rw [if_pos hcond]
      rcases Nat.lt_succ_iff_lt_or_eq.mp hj with hjn | rfl
      · have hmin := ih hjn
        rcases hcond with hlt | ⟨heq, hkey⟩
        · constructor
          · exact le_trans (le_of_lt hlt) hmin.1
          · intro hje
            have : score (bestIdx n score key) ≤ score n := hje ▸ hmin.1
            omega
        · constructor
          · exact heq ▸ hmin.1
          · intro hje
            exact le_trans (le_of_lt hkey) (hmin.2 (hje.trans heq))
      · exact ⟨le_refl _, fun _ => le_refl _⟩
    · rw [if_neg hcond]
      push_neg at hcond
      rcases Nat.lt_succ_iff_lt_or_eq.mp hj with hjn | rfl
      · exact ih hjn
      · exact ⟨hcond.1, fun h => hcond.2 h⟩

lemma meanDuration_le_iff {ns : Nat} (recorded : List Nat) (i j : Nat)
    (hns : 0 < ns) :
    meanDuration ns recorded i ≤ meanDuration ns recorded j ↔
      sliceSum ns recorded i ≤ sliceSum ns recorded j := by
  unfold meanDuration
  rw [div_le_div_iff_of_pos_right (by exact_mod_cast hns)]
  exact_mod_cast Iff.rfl

lemma meanDuration_eq_iff {ns : Nat} (recorded : List Nat) (i j : Nat)
    (hns : 0 < ns) :
    meanDuration ns recorded i = meanDuration ns recorded j ↔
      sliceSum ns recorded i = sliceSum ns recorded j := by
  constructor
  · intro h
    exact le_antisymm
      ((meanDuration_le_iff recorded i j hns).mp (le_of_eq h))
      ((meanDuration_le_iff recorded j i hns).mp (le_of_eq h.symm))
  · intro h
    unfold meanDuration
    rw [h]

namespace Autotuner

lemma foldl_step_locked (ts : List Nat) (a : Autotuner)
    (h : a.locked = true) : ts.foldl step a = a := by
  induction ts with
  | nil => rfl
  | cons t rest ih =>
    have : step a t = a := by simp [step, h]
    rw [List.foldl_cons, this, ih]

lemma foldl_step_scanning (ts : List Nat) :
    ∀ a : Autotuner, a.locked = false →
      a.recorded.length + ts.length < a.samplesPer * a.candidates.length →
      ts.foldl step a = { a with recorded := a.recorded ++ ts } := by
  induction ts with
  | nil => intro a ha _; simp
  | cons t rest ih =>
    intro a ha hlen
    simp only [List.length_cons] at hlen
    have hne : ¬(a.recorded.length + 1
        = a.samplesPer * a.candidates.length) := by omega
    have hstep : step a t = { a with recorded := a.recorded ++ [t] } := by
      simp [step, ha, hne]
    rw [List.foldl_cons, hstep]
    have := ih { a with recorded := a.recorded ++ [t] } (by simp [ha])
      (by simp only [List.length_append, List.length_cons, List.length_nil]
          omega)
    rw [this]
    simp

lemma foldl_step_completes (ts : List Nat) :
    ∀ a : Autotuner, a.locked = false → 0 < ts.length →
      a.recorded.length + ts.length = a.samplesPer * a.candidates.length →
      ts.foldl step a =
        { a with recorded := a.recorded ++ ts, locked := true,
                 lockedParam :=
                   lockChoice a.candidates a.samplesPer (a.recorded ++ ts) } := by
  induction ts with
  | nil => intro a _ hpos _; exact absurd hpos (by simp)
  | cons t rest ih =>
    intro a ha hpos hlen
    simp only [List.length_cons] at hlen
    rcases rest with _ | ⟨r, rest2⟩
    · have heq : a.recorded.length + 1
          = a.samplesPer * a.candidates.length := by
        simp only [List.length_nil] at hlen
        omega
      have hstep : step a t =
          { a with recorded := a.recorded ++ [t], locked := true,
                   lockedParam :=
                     lockChoice a.candidates a.samplesPer (a.recorded ++ [t]) } := by
        simp [step, heq, ha]
      rw [List.foldl_cons, hstep, List.foldl_nil]
    · have hne : ¬(a.recorded.length + 1
          = a.samplesPer * a.candidates.length) := by
        simp only [List.length_cons] at hlen
        omega
      have hstep : step a t = { a with recorded := a.recorded ++ [t] } := by
        simp [step, ha, hne]
      rw [List.foldl_cons, hstep]
      have := ih { a with recorded := a.recorded ++ [t] } (by simp [ha])
        (by simp)
        (by simp only [List.length_append, List.length_cons, List.length_nil]
            simp only [List.length_cons] at hlen
            omega)
      rw [this]
      simp

end Autotuner

/-! ### Helper lemmas about the composite-geometry setters -/

lemma getD_set_self {α : Type} {l : List α} {i : Nat} {x d : α}
    (h : i < l.length) : (l.set i x).getD i d = x := by
  simp [List.getD_eq_getElem?_getD, List.getElem?_set_self, h]

namespace PatchState

lemma updateBlock_getD (st : PatchState) (tid : Nat)
    (f : UnionParams → UnionParams) (h : tid < st.m_d_union_params.length) :
    (st.updateBlock tid f).m_d_union_params.getD tid default
      = f (st.m_d_union_params.getD tid default) := by
  unfold updateBlock
  exact getD_set_self h

lemma updateBlock_length (st : PatchState) (tid : Nat)
    (f : UnionParams → UnionParams) :
    (st.updateBlock tid f).m_d_union_params.length
      = st.m_d_union_params.length := by
  simp [updateBlock]

end PatchState

/-- A concrete one-type composite state (type name "A", one constituent at
the origin with diameter 1, consistent bounding-volume tree) used to
instantiate the setter theorems. -/
def sampleState : PatchState :=
  { typeNames := ["A"],
    m_type := [[0]],
    m_position := [[((0 : ℚ), (0 : ℚ), (0 : ℚ))]],
    m_orientation := [[((1 : ℚ), ((0 : ℚ), (0 : ℚ), (0 : ℚ)))]],
    m_diameter := [[(1 : ℚ)]],
    m_charge := [[(0 : ℚ)]],
    m_tree := [{ builtFromPositions := [((0 : ℚ), (0 : ℚ), (0 : ℚ))],
                 builtFromDiameters := [(1 : ℚ)] }],
    m_d_union_params :=
      [{ mtype := [0],
         mpos := [((0 : ℚ), (0 : ℚ), (0 : ℚ))],
         morientation := [((1 : ℚ), ((0 : ℚ), (0 : ℚ), (0 : ℚ)))],
         mdiameter := [(1 : ℚ)],
         mcharge := [(0 : ℚ)],
         tree := { builtFromPositions := [((0 : ℚ), (0 : ℚ), (0 : ℚ))],
                   builtFromDiameters := [(1 : ℚ)] },
         hintCount := 0 }],
    rebuildCount := 0 }

/-! ### Theorems -/

/-- C1: a `computeForces` call that finds the neighbor list in the
unsupported half storage mode throws before any autotuner `begin()` has
occurred (the timed-launch bracket count stays 0) and before any kernel
launch is issued. -/
theorem computeForces_half_fails_fast (st : GPUComputeInputs)
    (h : st.mode = StorageMode.half) :
    (computeForces st).outcome = Outcome.halfListError ∧
    (computeForces st).beginCount = 0 ∧
    (computeForces st).launches = [] ∧
    (computeForces st).endCount = 0 ∧
    (computeForces st).getParamCalls = 0 := by
  simp [computeForces, h]

/-- C1 witness: the fail-fast behaviour at a concrete half-mode call. -/
theorem computeForces_half_fails_fast_witness :
    (computeForces
        { mode := StorageMode.half, mParam := 0, tunerParam := 320032,
          errorChecking := true, deviceErrorPending := false }).outcome
        = Outcome.halfListError ∧
    (computeForces
        { mode := StorageMode.half, mParam := 0, tunerParam := 320032,
          errorChecking := true, deviceErrorPending := false }).beginCount = 0 ∧
    (computeForces
        { mode := StorageMode.half, mParam := 0, tunerParam := 320032,
          errorChecking := true, deviceErrorPending := false }).launches = [] ∧
    (computeForces
        { mode := StorageMode.half, mParam := 0, tunerParam := 320032,
          errorChecking := true, deviceErrorPending := false }).endCount = 0 ∧
    (computeForces
        { mode := StorageMode.half, mParam := 0, tunerParam := 320032,
          errorChecking := true, deviceErrorPending := false }).getParamCalls
        = 0 :=
  computeForces_half_fails_fast _ rfl

/-- C3 counterexample: the claim "every call passing the mode check calls
`getParam()` and brackets the launch with exactly one `begin()`/`end()`
pair" is false.  With `setTuningParam` having stored a nonzero `m_param`
(here 320032), a full-mode call launches the kernel yet never calls
`getParam()`, `begin()` or `end()`; and with error checking enabled and a
pending device error, the `m_param == 0` path leaves an unpaired `begin()`
(the `CHECK_CUDA_ERROR()` throw skips `end()`). -/
theorem computeForces_bracket_counterexample :
    ((computeForces
        { mode := StorageMode.full, mParam := 320032, tunerParam := 0,
          errorChecking := false, deviceErrorPending := false }).getParamCalls
        = 0 ∧
     (computeForces
        { mode := StorageMode.full, mParam := 320032, tunerParam := 0,
          errorChecking := false, deviceErrorPending := false }).beginCount
        = 0 ∧
     (computeForces
        { mode := StorageMode.full, mParam := 320032, tunerParam := 0,
          errorChecking := false, deviceErrorPending := false }).launches
        ≠ []) ∧
    ((computeForces
        { mode := StorageMode.full, mParam := 0, tunerParam := 320032,
          errorChecking := true, deviceErrorPending := true }).beginCount
        = 1 ∧
     (computeForces
        { mode := StorageMode.full, mParam := 0, tunerParam := 320032,
          errorChecking := true, deviceErrorPending := true }).endCount
        = 0) := by
  decide

/-- C3 (amended): a `computeForces` call that passes the neighbor-list mode
check and runs with no manual tuning parameter set (`m_param == 0`) calls
`getParam()` exactly once and brackets the single kernel launch with exactly
one `begin()`/`end()` pair — provided the optional post-launch check does not
throw; when a manual parameter is set, the single launch proceeds with no
autotuner interaction at all. -/
theorem computeForces_bracket (st : GPUComputeInputs)
    (h : st.mode ≠ StorageMode.half) :
    (st.mParam = 0 → (computeForces st).outcome ≠ Outcome.deviceError →
      (computeForces st).beginCount = 1 ∧
      (computeForces st).endCount = 1 ∧
      (computeForces st).getParamCalls = 1 ∧
      (computeForces st).launches
        = [(decodeBlockSize st.tunerParam, decodeTpp st.tunerParam)]) ∧
    (st.mParam ≠ 0 →
      (computeForces st).beginCount = 0 ∧
      (computeForces st).endCount = 0 ∧
      (computeForces st).getParamCalls = 0 ∧
      (computeForces st).launches
        = [(decodeBlockSize st.mParam, decodeTpp st.mParam)]) := by
  rcases st with ⟨mode, mParam, tunerParam, errorChecking, deviceErrorPending⟩
  constructor
  · intro h0 hout
    subst h0
    rcases errorChecking <;> rcases deviceErrorPending <;>
      simp_all [computeForces]
  · intro hne
    rcases errorChecking <;> rcases deviceErrorPending <;>
      simp_all [computeForces]

/-- C3 witness: the amended bracketing at a concrete full-mode call with
`m_param == 0` and no pending device error. -/
theorem computeForces_bracket_witness :
    (computeForces
        { mode := StorageMode.full, mParam := 0, tunerParam := 320032,
          errorChecking := false, deviceErrorPending := false }).beginCount
        = 1 ∧
    (computeForces
        { mode := StorageMode.full, mParam := 0, tunerParam := 320032,
          errorChecking := false, deviceErrorPending := false }).endCount
        = 1 ∧
    (computeForces
        { mode := StorageMode.full, mParam := 0, tunerParam := 320032,
          errorChecking := false, deviceErrorPending := false }).getParamCalls
        = 1 ∧
    (computeForces
        { mode := StorageMode.full, mParam := 0, tunerParam := 320032,
          errorChecking := false, deviceErrorPending := false }).launches
        = [(decodeBlockSize 320032, decodeTpp 320032)] :=
  (computeForces_bracket
      { mode := StorageMode.full, mParam := 0, tunerParam := 320032,
        errorChecking := false, deviceErrorPending := false }
      (by decide)).1 rfl (by decide)

/-- C7: `computeForces` performs the post-launch device error check exactly
when device error checking is enabled in the execution configuration (and the
launch is reached at all), and with the flag disabled no device execution
error is ever surfaced by the call. -/
theorem computeForces_error_check_gated (st : GPUComputeInputs) :
    (computeForces st).errorChecks
      = (if st.errorChecking = true ∧ st.mode ≠ StorageMode.half
         then 1 else 0) ∧
    ((computeForces st).outcome = Outcome.deviceError ↔
      (st.errorChecking = true ∧ st.deviceErrorPending = true ∧
        st.mode ≠ StorageMode.half)) := by
  rcases st with ⟨mode, mParam, tunerParam, errorChecking, deviceErrorPending⟩
  rcases mode <;> rcases errorChecking <;> rcases deviceErrorPending <;>
    simp [computeForces]

/-- C9: for every tuning key the DPD constructor encodes
(`block_size * 10000 + tpp` with `tpp` a power of two no larger than the warp
size, itself below 10000), the decode in `computeForces` is a left inverse:
`key / 10000` recovers the block size and `key % 10000` recovers the
threads-per-particle count. -/
theorem dpd_decode_left_inverse (blockSize tpp warpSize : Nat)
    (_hpow : ∃ i, tpp = 2 ^ i) (hle : tpp ≤ warpSize)
    (hwarp : warpSize < 10000) :
    decodeBlockSize (encodeDPDParam blockSize tpp) = blockSize ∧
    decodeTpp (encodeDPDParam blockSize tpp) = tpp := by
  have htpp : tpp < 10000 := lt_of_le_of_lt hle hwarp
  unfold decodeBlockSize decodeTpp encodeDPDParam
  omega

/-- C9 witness: decoding the concrete key for block size 128 and 32 threads
per particle on a warp-32 device. -/
theorem dpd_decode_left_inverse_witness :
    decodeBlockSize (encodeDPDParam 128 32) = 128 ∧
    decodeTpp (encodeDPDParam 128 32) = 32 :=
  dpd_decode_left_inverse 128 32 32 ⟨5, rfl⟩ (by decide) (by decide)

/-- C2 counterexample: the claim that *every* geometry-changing setter
triggers a full rebuild of the type's bounding-volume tree is false.  On the
concrete one-type state, `setDiameters "A" [2]` stores the new diameters but
performs no rebuild (`rebuildCount` stays 0) and leaves the device block's
tree built from the old diameters `[1]` — a tree stale with respect to the
stored constituent data. -/
theorem stale_tree_counterexample :
    (sampleState.setDiameters "A" [(2 : ℚ)]).map PatchState.rebuildCount
      = some 0 ∧
    (sampleState.setDiameters "A" [(2 : ℚ)]).map
        (fun s => (s.m_d_union_params.getD 0 default).tree)
      = some { builtFromPositions := [((0 : ℚ), (0 : ℚ), (0 : ℚ))],
               builtFromDiameters := [(1 : ℚ)] } ∧
    (sampleState.setDiameters "A" [(2 : ℚ)]).map
        (fun s => s.m_diameter.getD 0 [])
      = some [(2 : ℚ)] ∧
    ({ builtFromPositions := [((0 : ℚ), (0 : ℚ), (0 : ℚ))],
       builtFromDiameters := [(1 : ℚ)] } : OBBTreeModel)
      ≠ { builtFromPositions := [((0 : ℚ), (0 : ℚ), (0 : ℚ))],
          builtFromDiameters := [(2 : ℚ)] } := by
  refine ⟨rfl, rfl, rfl, ?_⟩
  intro h
  exact absurd (congrArg OBBTreeModel.builtFromDiameters h) (by decide)

/-- C2 (amended): among the composite-geometry setters, only `setPositions`
triggers a full rebuild of the type's bounding-volume tree (leaving the
device tree freshly derived from the new positions and the stored
diameters); `setTypeids`, `setOrientations`, `setDiameters` and `setCharges`
update the stored data without touching the tree, so after `setDiameters`
the tree can be stale until the next rebuild. -/
theorem rebuild_on_setPositions_only (st : PatchState) (ty : String)
    (tid : Nat) (position : List Vec3) (typeids : List Nat)
    (orientation : List QuatQ) (diameter charge : List Rat)
    (hty : st.getTypeByName ty = some tid)
    (hblocks : tid < st.m_d_union_params.length)
    (hpos : tid < st.m_position.length) :
    (∃ st1, st.setPositions ty position = some st1 ∧
      (st1.m_d_union_params.getD tid default).tree
        = { builtFromPositions := position,
            builtFromDiameters := st.m_diameter.getD tid [] } ∧
      st1.rebuildCount = st.rebuildCount + 1) ∧
    (∃ st1, st.setTypeids ty typeids = some st1 ∧
      (st1.m_d_union_params.getD tid default).tree
        = (st.m_d_union_params.getD tid default).tree ∧
      st1.rebuildCount = st.rebuildCount) ∧
    (∃ st1, st.setOrientations ty orientation = some st1 ∧
      (st1.m_d_union_params.getD tid default).tree
        = (st.m_d_union_params.getD tid default).tree ∧
      st1.rebuildCount = st.rebuildCount) ∧
    (∃ st1, st.setDiameters ty diameter = some st1 ∧
      (st1.m_d_union_params.getD tid default).tree
        = (st.m_d_union_params.getD tid default).tree ∧
      st1.rebuildCount = st.rebuildCount) ∧
    (∃ st1, st.setCharges ty charge = some st1 ∧
      (st1.m_d_union_params.getD tid default).tree
        = (st.m_d_union_params.getD tid default).tree ∧
      st1.rebuildCount = st.rebuildCount) := by
  refine ⟨⟨_, by rw [PatchState.setPositions, hty, Option.map_some'], ?_, ?_⟩,
          ⟨_, by rw [PatchState.setTypeids, hty, Option.map_some'], ?_, ?_⟩,
          ⟨_, by rw [PatchState.setOrientations, hty, Option.map_some'], ?_, ?_⟩,
          ⟨_, by rw [PatchState.setDiameters, hty, Option.map_some'], ?_, ?_⟩,
          ⟨_, by rw [PatchState.setCharges, hty, Option.map_some'], ?_, ?_⟩⟩ <;>
    simp [PatchState.updateBlock, PatchState.buildOBBTree, List.set_set,
      getD_set_self, hblocks, hpos]

/-- C2 witness: the amended statement instantiated on the concrete one-type
state: `setPositions` rebuilds the tree from the new position and the stored
diameters, the four other setters leave the tree and the rebuild count
untouched. -/
theorem rebuild_on_setPositions_only_witness :
    (∃ st1, sampleState.setPositions "A" [((1 : ℚ), (0 : ℚ), (0 : ℚ))]
        = some st1 ∧
      (st1.m_d_union_params.getD 0 default).tree
        = { builtFromPositions := [((1 : ℚ), (0 : ℚ), (0 : ℚ))],
            builtFromDiameters := sampleState.m_diameter.getD 0 [] } ∧
      st1.rebuildCount = sampleState.rebuildCount + 1) ∧
    (∃ st1, sampleState.setTypeids "A" [1, 2] = some st1 ∧
      (st1.m_d_union_params.getD 0 default).tree
        = (sampleState.m_d_union_params.getD 0 default).tree ∧
      st1.rebuildCount = sampleState.rebuildCount) ∧
    (∃ st1, sampleState.setOrientations "A"
        [((0 : ℚ), ((1 : ℚ), (0 : ℚ), (0 : ℚ)))] = some st1 ∧
      (st1.m_d_union_params.getD 0 default).tree
        = (sampleState.m_d_union_params.getD 0 default).tree ∧
      st1.rebuildCount = sampleState.rebuildCount) ∧
    (∃ st1, sampleState.setDiameters "A" [(2 : ℚ)] = some st1 ∧
      (st1.m_d_union_params.getD 0 default).tree
        = (sampleState.m_d_union_params.getD 0 default).tree ∧
      st1.rebuildCount = sampleState.rebuildCount) ∧
    (∃ st1, sampleState.setCharges "A" [(-1 : ℚ)] = some st1 ∧
      (st1.m_d_union_params.getD 0 default).tree
        = (sampleState.m_d_union_params.getD 0 default).tree ∧
      st1.rebuildCount = sampleState.rebuildCount) :=
  rebuild_on_setPositions_only sampleState "A" 0
    [((1 : ℚ), (0 : ℚ), (0 : ℚ))] [1, 2]
    [((0 : ℚ), ((1 : ℚ), (0 : ℚ), (0 : ℚ)))] [(2 : ℚ)] [(-1 : ℚ)]
    (by decide) (by decide) (by decide)

/-- C8: every composite-geometry setter (`setTypeids`, `setPositions`,
`setOrientations`, `setDiameters`, `setCharges`) replaces the corresponding
field of the type's device-shared parameter block wholesale with the new data
and updates the block's read-mostly residency hint (`set_memory_hint()`),
on every write. -/
theorem setters_replace_wholesale_and_rehint (st : PatchState) (ty : String)
    (tid : Nat) (typeids : List Nat) (position : List Vec3)
    (orientation : List QuatQ) (diameter charge : List Rat)
    (hty : st.getTypeByName ty = some tid)
    (hlen : tid < st.m_d_union_params.length) :
    (∃ st1, st.setTypeids ty typeids = some st1 ∧
      (st1.m_d_union_params.getD tid default).mtype = typeids ∧
      (st1.m_d_union_params.getD tid default).hintCount
        = (st.m_d_union_params.getD tid default).hintCount + 1) ∧
    (∃ st1, st.setPositions ty position = some st1 ∧
      (st1.m_d_union_params.getD tid default).mpos = position ∧
      (st1.m_d_union_params.getD tid default).hintCount
        = (st.m_d_union_params.getD tid default).hintCount + 1) ∧
    (∃ st1, st.setOrientations ty orientation = some st1 ∧
      (st1.m_d_union_params.getD tid default).morientation = orientation ∧
      (st1.m_d_union_params.getD tid default).hintCount
        = (st.m_d_union_params.getD tid default).hintCount + 1) ∧
    (∃ st1, st.setDiameters ty diameter = some st1 ∧
      (st1.m_d_union_params.getD tid default).mdiameter = diameter ∧
      (st1.m_d_union_params.getD tid default).hintCount
        = (st.m_d_union_params.getD tid default).hintCount + 1) ∧
    (∃ st1, st.setCharges ty charge = some st1 ∧
      (st1.m_d_union_params.getD tid default).mcharge = charge ∧
      (st1.m_d_union_params.getD tid default).hintCount
        = (st.m_d_union_params.getD tid default).hintCount + 1) := by
  refine ⟨⟨_, by rw [PatchState.setTypeids, hty, Option.map_some'], ?_, ?_⟩,
          ⟨_, by rw [PatchState.setPositions, hty, Option.map_some'], ?_, ?_⟩,
          ⟨_, by rw [PatchState.setOrientations, hty, Option.map_some'], ?_, ?_⟩,
          ⟨_, by rw [PatchState.setDiameters, hty, Option.map_some'], ?_, ?_⟩,
          ⟨_, by rw [PatchState.setCharges, hty, Option.map_some'], ?_, ?_⟩⟩ <;>
    simp [PatchState.updateBlock, PatchState.buildOBBTree, List.set_set,
      getD_set_self, hlen]

/-- C8 witness: the five setters instantiated on the concrete one-type
state, writing fresh constituent data for type "A". -/
theorem setters_replace_wholesale_and_rehint_witness :
    (∃ st1, sampleState.setTypeids "A" [1, 2] = some st1 ∧
      (st1.m_d_union_params.getD 0 default).mtype = [1, 2] ∧
      (st1.m_d_union_params.getD 0 default).hintCount
        = (sampleState.m_d_union_params.getD 0 default).hintCount + 1) ∧
    (∃ st1, sampleState.setPositions "A" [((1 : ℚ), (0 : ℚ), (0 : ℚ))]
        = some st1 ∧
      (st1.m_d_union_params.getD 0 default).mpos
        = [((1 : ℚ), (0 : ℚ), (0 : ℚ))] ∧
      (st1.m_d_union_params.getD 0 default).hintCount
        = (sampleState.m_d_union_params.getD 0 default).hintCount + 1) ∧
    (∃ st1, sampleState.setOrientations "A"
        [((0 : ℚ), ((1 : ℚ), (0 : ℚ), (0 : ℚ)))] = some st1 ∧
      (st1.m_d_union_params.getD 0 default).morientation
        = [((0 : ℚ), ((1 : ℚ), (0 : ℚ), (0 : ℚ)))] ∧
      (st1.m_d_union_params.getD 0 default).hintCount
        = (sampleState.m_d_union_params.getD 0 default).hintCount + 1) ∧
    (∃ st1, sampleState.setDiameters "A" [(2 : ℚ)] = some st1 ∧
      (st1.m_d_union_params.getD 0 default).mdiameter = [(2 : ℚ)] ∧
      (st1.m_d_union_params.getD 0 default).hintCount
        = (sampleState.m_d_union_params.getD 0 default).hintCount + 1) ∧
    (∃ st1, sampleState.setCharges "A" [(-1 : ℚ)] = some st1 ∧
      (st1.m_d_union_params.getD 0 default).mcharge = [(-1 : ℚ)] ∧
      (st1.m_d_union_params.getD 0 default).hintCount
        = (sampleState.m_d_union_params.getD 0 default).hintCount + 1) :=
  setters_replace_wholesale_and_rehint sampleState "A" 0 [1, 2]
    [((1 : ℚ), (0 : ℚ), (0 : ℚ))] [((0 : ℚ), ((1 : ℚ), (0 : ℚ), (0 : ℚ)))]
    [(2 : ℚ)] [(-1 : ℚ)] (by decide) (by decide)

/-- C10: `SystemDefinition::setNDimensions(n)` succeeds and stores `n`
exactly when `n` is 2 or 3; any other `n` produces the runtime error and
leaves the stored dimensionality unchanged. -/
theorem setNDimensions_spec (sysdef : SystemDefinition) (n : Nat) :
    ((n = 2 ∨ n = 3) →
      setNDimensions sysdef n = ({ sysdef with n_dimensions := n }, none)) ∧
    (¬(n = 2 ∨ n = 3) →
      setNDimensions sysdef n = (sysdef, some "Error setting dimensions")) := by
  constructor
  · intro h
    simp [setNDimensions, h]
  · intro h
    simp [setNDimensions, h]

/-- C10 witness: `setNDimensions` accepts 2 on a 3-dimensional system and
rejects 5, leaving the state unchanged. -/
theorem setNDimensions_spec_witness :
    setNDimensions { n_dimensions := 3 } 2
      = ({ n_dimensions := 2 }, none) ∧
    setNDimensions { n_dimensions := 3 } 5
      = ({ n_dimensions := 3 }, some "Error setting dimensions") :=
  ⟨(setNDimensions_spec { n_dimensions := 3 } 2).1 (Or.inl rfl),
   (setNDimensions_spec { n_dimensions := 3 } 5).2 (by omega)⟩

/-- C4: for every non-empty candidate set, after exactly
`samples_per_candidate × |candidates|` begin/end pairs the autotuner is
Locked and `getParam()` returns a candidate whose mean recorded duration is
minimal, ties broken toward the smaller encoded key; and in the concrete
scenario — candidates `{10, 20, 30}`, two samples each, probe order
`10,10,20,20,30,30` with durations `5,5,3,3,9,9` — `getParam()` after the
sixth pair returns 20. -/
theorem autotuner_locks_to_min_mean :
    (∀ (cand : List Nat) (ns period : Nat) (name : String) (ts : List Nat),
      cand ≠ [] → 0 < ns → ts.length = ns * cand.length →
        (ts.foldl Autotuner.step
            (Autotuner.construct cand ns period name)).locked = true ∧
        ∃ i, i < cand.length ∧
          (ts.foldl Autotuner.step
              (Autotuner.construct cand ns period name)).getParam
            = cand.getD i 0 ∧
          (∀ j, j < cand.length →
            meanDuration ns ts i ≤ meanDuration ns ts j) ∧
          (∀ j, j < cand.length →
            meanDuration ns ts j = meanDuration ns ts i →
            cand.getD i 0 ≤ cand.getD j 0)) ∧
    (([5, 5, 3, 3, 9, 9] : List Nat).foldl Autotuner.step
        (Autotuner.construct [10, 20, 30] 2 100000 "pair_dpd")).getParam
      = 20 := by
  constructor
  · intro cand ns period name ts hc hns hlen
    have hcl : 0 < cand.length := List.length_pos.mpr hc
    have hN : 0 < ns * cand.length := Nat.mul_pos hns hcl
    have hfold := Autotuner.foldl_step_completes ts
      (Autotuner.construct cand ns period name) rfl (by omega)
      (by simpa [Autotuner.construct] using hlen)
    refine ⟨by rw [hfold], ?_⟩
    refine ⟨bestIdx cand.length (sliceSum ns ts) (fun j => cand.getD j 0),
      bestIdx_lt _ _ _ hcl, ?_, ?_, ?_⟩
    · rw [hfold]
      simp [Autotuner.getParam, lockChoice, Autotuner.construct]
    · intro j hj
      rw [meanDuration_le_iff ts _ j hns]
      exact (bestIdx_min cand.length (sliceSum ns ts)
        (fun j => cand.getD j 0) j hj).1
    · intro j hj htie
      have := (bestIdx_min cand.length (sliceSum ns ts)
        (fun j => cand.getD j 0) j hj).2
        ((meanDuration_eq_iff ts j _ hns).mp htie)
      exact this
  · decide

/-- C4 witness: the general lock-and-argmin statement applied to the
concrete scenario (candidates 10, 20, 30; two samples each; durations
5, 5, 3, 3, 9, 9). -/
theorem autotuner_locks_to_min_mean_witness :
    (([5, 5, 3, 3, 9, 9] : List Nat).foldl Autotuner.step
        (Autotuner.construct [10, 20, 30] 2 100000 "pair_dpd")).locked
      = true ∧
    ∃ i, i < ([10, 20, 30] : List Nat).length ∧
      (([5, 5, 3, 3, 9, 9] : List Nat).foldl Autotuner.step
          (Autotuner.construct [10, 20, 30] 2 100000 "pair_dpd")).getParam
        = ([10, 20, 30] : List Nat).getD i 0 ∧
      (∀ j, j < ([10, 20, 30] : List Nat).length →
        meanDuration 2 [5, 5, 3, 3, 9, 9] i
          ≤ meanDuration 2 [5, 5, 3, 3, 9, 9] j) ∧
      (∀ j, j < ([10, 20, 30] : List Nat).length →
        meanDuration 2 [5, 5, 3, 3, 9, 9] j
          = meanDuration 2 [5, 5, 3, 3, 9, 9] i →
        ([10, 20, 30] : List Nat).getD i 0
          ≤ ([10, 20, 30] : List Nat).getD j 0) :=
  autotuner_locks_to_min_mean.1 [10, 20, 30] 2 100000 "pair_dpd"
    [5, 5, 3, 3, 9, 9] (by decide) (by decide) (by decide)

/-- C5 counterexample: the claim's converse direction fails for the DPD
tuner as stated.  On a warp-32 device, `(block_size, tpp) = (32, 64)`
satisfies every condition the claim names — the block size is a positive
multiple of the warp size not exceeding 1024 and the tpp is a power of two —
yet its key `32 * 10000 + 64 = 320064` is not in the enumerated domain,
because the candidate tpp values never exceed the warp size. -/
theorem tuning_domain_counterexample :
    (∃ m, 0 < m ∧ 32 = m * 32) ∧ (32 : Nat) ≤ 1024 ∧
    (∃ i, (64 : Nat) = 2 ^ i) ∧
    encodeDPDParam 32 64 ∉ dpdValidParams 32 :=
  ⟨⟨1, Nat.one_pos, rfl⟩, by decide, ⟨6, rfl⟩, by decide⟩

/-- C5 (amended): the candidate domains are characterised as the claim
states, with one addition on the DPD side: the threads-per-particle factor is
a power of two *not exceeding the warp size*.  Every DPD key equals
`block_size * 10000 + tpp` with `block_size` a positive multiple of the warp
size at most 1024 and `tpp` a power of two at most the warp size, and
conversely; every JIT narrow-phase key equals
`bounds * 1000000 + group_size * 100 + eval_threads` with `bounds` a launch
bound of the compiled module, `group_size` and `eval_threads` powers of two,
`eval_threads` at most the warp size and `group_size * eval_threads` dividing
`bounds`, and conversely. -/
theorem tuning_domains_characterization (warpSize k : Nat)
    (launchBounds : List Nat) (hw : 0 < warpSize)
    (hlb : ∀ b ∈ launchBounds, 0 < b) :
    (k ∈ dpdValidParams warpSize ↔
      ∃ blockSize tpp,
        (∃ m, 0 < m ∧ blockSize = m * warpSize) ∧ blockSize ≤ 1024 ∧
        (∃ i, tpp = 2 ^ i) ∧ tpp ≤ warpSize ∧
        k = encodeDPDParam blockSize tpp) ∧
    (k ∈ validParamsPatch launchBounds warpSize ↔
      ∃ bounds ∈ launchBounds, ∃ groupSize evalThreads,
        (∃ i, groupSize = 2 ^ i) ∧ (∃ j, evalThreads = 2 ^ j) ∧
        evalThreads ≤ warpSize ∧ groupSize * evalThreads ∣ bounds ∧
        k = bounds * 1000000 + groupSize * 100 + evalThreads) :=
  ⟨mem_dpdValidParams hw, mem_validParamsPatch hlb⟩

/-- C5 witness: the characterisation instantiated on a warp-32 device with a
single launch bound of 64, at the DPD key for `(block_size, tpp) = (64, 32)`
(which is in the DPD domain) — the membership in the domain follows from the
theorem's right-to-left direction at that concrete tuple. -/
theorem tuning_domains_characterization_witness :
    encodeDPDParam 64 32 ∈ dpdValidParams 32 :=
  ((tuning_domains_characterization 32 (encodeDPDParam 64 32) [64]
      (by decide) (by decide)).1).mpr
    ⟨64, 32, ⟨2, Nat.two_pos, rfl⟩, by decide, ⟨5, rfl⟩, by decide, rfl⟩

/-- C6: both autotuners this subsystem constructs — the DPD pair tuner and
the JIT narrow-phase patch tuner — are created with a required sample count
of 5 and a rescan period of 100000 steps. -/
theorem tuners_default_samples_and_period (warpSize : Nat)
    (launchBounds : List Nat) (evaluatorName : String) :
    (dpdTuner warpSize evaluatorName).samplesPer = 5 ∧
    (dpdTuner warpSize evaluatorName).period = 100000 ∧
    (patchTuner launchBounds warpSize).samplesPer = 5 ∧
    (patchTuner launchBounds warpSize).period = 100000 :=
  ⟨rfl, rfl, rfl, rfl⟩

end HoomdModel
